import Mathlib

/-!
Verification development for the Timeline Edit State & History Engine of the
video-template editor, together with the upload / properties-panel / export
components that are present in the repository source.  Numeric values are
modelled as rationals; fields, clamps and formulas follow the source (for the
UI components under src) and the specification (for the engine, whose code is
not part of the repository snapshot).
-/

namespace VideoEditor

/-! ## Coordinate mapper -/

/-- Modelled from the spec: the pixel-per-second base scale used by the
coordinate mapper.  The spec fixes no numeric value; any positive constant
realises the contract, we pick 50 pixels per second. -/
def basePixelsPerSecond : ℚ := 50

/-- Modelled from the spec: zoom is clamped to [0.25, 1.75] on input. -/
def clampZoom (z : ℚ) : ℚ := max (1/4) (min (7/4) z)

/-- Modelled from the spec: timeToPixel(t, zoom) = t * basePixelsPerSecond * zoom,
with zoom clamped on input. -/
def timeToPixel (t zoom : ℚ) : ℚ := t * basePixelsPerSecond * clampZoom zoom

/-- Modelled from the spec: pixelToTime(p, zoom) = p / (basePixelsPerSecond * zoom),
with zoom clamped on input. -/
def pixelToTime (p zoom : ℚ) : ℚ := p / (basePixelsPerSecond * clampZoom zoom)

/-! ## Clip placement model -/

/-- Per-clip transform bag: x, y, scale, rotation (degrees), opacity. -/
structure Transform where
  x : ℚ
  y : ℚ
  scale : ℚ
  rotation : ℚ
  opacity : ℚ
deriving DecidableEq

/-- Modelled from the spec: one placed clip.  `sourceDuration` is the duration
of the referenced media-source asset (the core holds a non-owning reference and
reads only its duration), `speed` is the clip's audio/playback speed. -/
structure Clip where
  id : String
  timelineStart : ℚ
  timelineEnd : ℚ
  trimStart : ℚ
  trimEnd : ℚ
  sourceDuration : ℚ
  speed : ℚ
  transform : Transform
deriving DecidableEq

/-- Modelled from the spec: `minClipLength` = 0.1 s floor that avoids
zero/negative-duration clips. -/
def minClipLength : ℚ := 1/10

/-- Modelled from the spec: the clip invariants.  Trim window inside the source
(`0 ≤ trimStart < trimEnd ≤ sourceDuration`), speed within [0.25, 4], and the
timeline duration derived from the trim window and the speed. -/
def ClipValid (c : Clip) : Prop :=
  0 ≤ c.trimStart ∧ c.trimStart < c.trimEnd ∧ c.trimEnd ≤ c.sourceDuration ∧
  (1/4 : ℚ) ≤ c.speed ∧ c.speed ≤ 4 ∧
  c.timelineEnd - c.timelineStart = (c.trimEnd - c.trimStart) / c.speed

/-! ## Constraint resolver -/

/-- Modelled from the spec: `applyTrimLeft(clip, proposedTrimStart)` clamps the
proposal to `[0, clip.trimEnd - minClipLength]` and recomputes `timelineStart`
so the clip shifts consistently with the trimmed-away duration (a source-time
delta moves the timeline edge by delta / speed); `timelineEnd` is unchanged.
If the clamp interval is empty (it would force a zero-length or inverted clip)
the original clip is returned unmodified. -/
def applyTrimLeft (c : Clip) (proposedTrimStart : ℚ) : Clip :=
  if c.trimEnd - minClipLength < 0 then c
  else
    let newTrimStart := max 0 (min (c.trimEnd - minClipLength) proposedTrimStart)
    { c with trimStart := newTrimStart,
             timelineStart := c.timelineStart + (newTrimStart - c.trimStart) / c.speed }

/-- Modelled from the spec: `applyTrimRight(clip, proposedTrimEnd)` clamps the
proposal to `[clip.trimStart + minClipLength, sourceDuration]` and recomputes
`timelineEnd`; `timelineStart` is unchanged.  If the clamp interval is empty
the original clip is returned unmodified. -/
def applyTrimRight (c : Clip) (proposedTrimEnd : ℚ) : Clip :=
  if c.sourceDuration < c.trimStart + minClipLength then c
  else
    let newTrimEnd := max (c.trimStart + minClipLength) (min c.sourceDuration proposedTrimEnd)
    { c with trimEnd := newTrimEnd,
             timelineEnd := c.timelineStart + (newTrimEnd - c.trimStart) / c.speed }

/-- Modelled from the spec: `applyMove(clip, proposedTimelineStart)` clamps the
proposal to `≥ 0` and shifts `timelineStart`/`timelineEnd` together, preserving
the clip length.  Overlap with other clips is permitted and not resolved. -/
def applyMove (c : Clip) (proposedTimelineStart : ℚ) : Clip :=
  let newStart := max 0 proposedTimelineStart
  { c with timelineStart := newStart,
           timelineEnd := newStart + (c.timelineEnd - c.timelineStart) }

/-- Modelled from the spec: speed proposals are clamped to [0.25, 4]. -/
def clampSpeed (s : ℚ) : ℚ := max (1/4) (min 4 s)

/-- Modelled from the spec: `applySpeed(clip, newSpeed)` clamps the speed to
[0.25, 4] and recomputes `timelineEnd = timelineStart + (trimEnd - trimStart) / newSpeed`. -/
def applySpeed (c : Clip) (newSpeed : ℚ) : Clip :=
  let s := clampSpeed newSpeed
  { c with speed := s,
           timelineEnd := c.timelineStart + (c.trimEnd - c.trimStart) / s }

/-- The demonstration clip of the spec scenarios: sourceDuration 10 s,
trim window [0, 10], speed 1, placed at timeline [0, 10]. -/
def demoClip : Clip :=
  { id := "demo", timelineStart := 0, timelineEnd := 10,
    trimStart := 0, trimEnd := 10, sourceDuration := 10, speed := 1,
    transform := { x := 0, y := 0, scale := 1, rotation := 0, opacity := 1 } }

/-! ## Project and history manager -/

/-- Modelled from the spec: the root aggregate owning the ordered clip
sequence, plus name and canvas dimensions. -/
structure Project where
  id : String
  name : String
  width : ℚ
  height : ℚ
  clips : List Clip
deriving DecidableEq

/-- Modelled from the spec: the live project together with the undo stack and
the redo stack of whole-project snapshots (most recent entry first). -/
structure HistoryState where
  undoStack : List Project
  live : Project
  redoStack : List Project
deriving DecidableEq

/-- Modelled from the spec: bounded history depth, default 50. -/
def maxHistoryDepth : Nat := 50

/-- Modelled from the spec: `commit(project)` pushes a copy of the pre-mutation
live project onto the undo stack (bounded depth, oldest entries evicted first),
clears the redo stack, and installs the mutated project as the new live one. -/
def commit (s : HistoryState) (mutated : Project) : HistoryState :=
  { undoStack := (s.live :: s.undoStack).take maxHistoryDepth,
    live := mutated,
    redoStack := [] }

/-- Modelled from the spec: `undo()` is a no-op if the undo stack is empty;
else it pushes the current live project onto the redo stack and pops and
restores the most recent undo entry as live. -/
def undo (s : HistoryState) : HistoryState :=
  match s.undoStack with
  | [] => s
  | p :: rest => { undoStack := rest, live := p, redoStack := s.live :: s.redoStack }

/-- Modelled from the spec: `redo()` is a no-op if the redo stack is empty;
else it pushes the current live project onto the undo stack and pops and
restores the most recent redo entry as live. -/
def redo (s : HistoryState) : HistoryState :=
  match s.redoStack with
  | [] => s
  | p :: rest => { undoStack := s.live :: s.undoStack, live := p, redoStack := rest }

/-- A sequence of committed mutations applied in order to a history state. -/
def applyCommits (s : HistoryState) (ms : List Project) : HistoryState :=
  ms.foldl commit s

/-! ## Gesture commit and epsilon thresholds -/

/-- Modelled from the spec: the position epsilon (0.01 s, also used for
scale/transform components). -/
def posEps : ℚ := 1/100

/-- Modelled from the spec: the rotation epsilon (0.5 degrees). -/
def degEps : ℚ := 1/2

/-- Modelled from the spec: the live gesture copy differs from the pre-gesture
clip by no more than the epsilon thresholds (positions and times 0.01 s,
scale/transform components 0.01, rotation 0.5 degrees). -/
def withinEpsilon (a b : Clip) : Prop :=
  |b.timelineStart - a.timelineStart| ≤ posEps ∧
  |b.timelineEnd - a.timelineEnd| ≤ posEps ∧
  |b.trimStart - a.trimStart| ≤ posEps ∧
  |b.trimEnd - a.trimEnd| ≤ posEps ∧
  |b.transform.x - a.transform.x| ≤ posEps ∧
  |b.transform.y - a.transform.y| ≤ posEps ∧
  |b.transform.scale - a.transform.scale| ≤ posEps ∧
  |b.transform.opacity - a.transform.opacity| ≤ posEps ∧
  |b.transform.rotation - a.transform.rotation| ≤ degEps

instance (a b : Clip) : Decidable (withinEpsilon a b) := by
  unfold withinEpsilon
  infer_instance

/-- Replace the clip with the given identifier in a project. -/
def replaceClip (p : Project) (clipId : String) (c : Clip) : Project :=
  { p with clips := p.clips.map (fun v => if v.id = clipId then c else v) }

/-- Modelled from the spec: pointer-up on a gesture.  If the live copy differs
from the pre-gesture clip by more than the epsilon thresholds, take a history
snapshot of the pre-gesture project and replace the clip with the live copy
(clearing the redo stack); a gesture within epsilon is discarded with no
history entry. -/
def commitGesture (s : HistoryState) (clipId : String) (preClip liveClip : Clip) :
    HistoryState :=
  if withinEpsilon preClip liveClip then s
  else commit s (replaceClip s.live clipId liveClip)

/-! ## VideoAsset (types/video, as used by VideoUploader / PropertiesPanel / ExportModal) -/

/-- The `position` bag of a VideoAsset: startTime/endTime on the timeline plus
an x/y placement. -/
structure Position where
  startTime : ℚ
  endTime : ℚ
  x : ℚ
  y : ℚ
deriving DecidableEq

/-- The optional `effects` bag; in the source every field is accessed through
optional chaining with a `?? 0` fallback, so each field is itself optional
(an object spread of a partial bag leaves absent fields absent). -/
structure EffectsBag where
  brightness : Option ℚ
  contrast : Option ℚ
  saturation : Option ℚ
  hue : Option ℚ
deriving DecidableEq

/-- The optional `audio` bag with optional fields, mirroring
`audio?.volume ?? 1`, `audio?.speed ?? 1`, `audio?.muted ?? false`. -/
structure AudioBag where
  volume : Option ℚ
  speed : Option ℚ
  muted : Option Bool
deriving DecidableEq

/-- A VideoAsset as created by VideoUploader and edited by PropertiesPanel. -/
structure VideoAsset where
  id : String
  name : String
  duration : ℚ
  size : ℚ
  url : String
  thumbnail : String
  position : Position
  transform : Transform
  effects : Option EffectsBag
  audio : Option AudioBag
deriving DecidableEq

/-- The VideoAsset literal constructed in VideoUploader.handleFileSelect once
metadata is loaded: the placement spans the whole source
(startTime 0, endTime = duration) and the transform is the identity default. -/
def mkVideoAsset (idv namev : String) (duration size : ℚ) (url thumbnail : String) :
    VideoAsset :=
  { id := idv, name := namev, duration := duration, size := size,
    url := url, thumbnail := thumbnail,
    position := { startTime := 0, endTime := duration, x := 0, y := 0 },
    transform := { x := 0, y := 0, scale := 1, rotation := 0, opacity := 1 },
    effects := none, audio := none }

/-- The TypeScript spread `{...video.effects}`: an absent bag spreads to the
empty (all-absent) bag. -/
def spreadEffects (oe : Option EffectsBag) : EffectsBag :=
  match oe with
  | none => { brightness := none, contrast := none, saturation := none, hue := none }
  | some e => e

/-- The TypeScript spread `{...video.audio}`. -/
def spreadAudio (oa : Option AudioBag) : AudioBag :=
  match oa with
  | none => { volume := none, speed := none, muted := none }
  | some a => a

/-- One property-panel edit event.  Each constructor corresponds to one
`onValueChange` / `onCheckedChange` handler of PropertiesPanel (the
reset-to-default buttons fire the same handlers at the DEFAULT_VALUES). -/
inductive PanelEdit where
  | setX (value : ℚ)
  | setY (value : ℚ)
  | setScale (value : ℚ)
  | setRotation (value : ℚ)
  | setOpacity (value : ℚ)
  | setBrightness (value : ℚ)
  | setContrast (value : ℚ)
  | setSaturation (value : ℚ)
  | setHue (value : ℚ)
  | setVolume (value : ℚ)
  | setSpeed (value : ℚ)
  | setMuted (m : Bool)
  | setName (n : String)
deriving DecidableEq

/-- Apply one PropertiesPanel edit to a video, following the handlers in the
source: each numeric handler replaces the corresponding bag with a spread of
the old bag updated at one field. -/
def applyEdit (v : VideoAsset) (e : PanelEdit) : VideoAsset :=
  match e with
  | .setX val => { v with transform := { v.transform with x := val } }
  | .setY val => { v with transform := { v.transform with y := val } }
  | .setScale val => { v with transform := { v.transform with scale := val } }
  | .setRotation val => { v with transform := { v.transform with rotation := val } }
  | .setOpacity val => { v with transform := { v.transform with opacity := val } }
  | .setBrightness val =>
      { v with effects := some { spreadEffects v.effects with brightness := some val } }
  | .setContrast val =>
      { v with effects := some { spreadEffects v.effects with contrast := some val } }
  | .setSaturation val =>
      { v with effects := some { spreadEffects v.effects with saturation := some val } }
  | .setHue val =>
      { v with effects := some { spreadEffects v.effects with hue := some val } }
  | .setVolume val =>
      { v with audio := some { spreadAudio v.audio with volume := some val } }
  | .setSpeed val =>
      { v with audio := some { spreadAudio v.audio with speed := some val } }
  | .setMuted m =>
      { v with audio := some { spreadAudio v.audio with muted := some m } }
  | .setName n => { v with name := n }

/-- The slider bounds of PropertiesPanel: a slider only emits values within its
min/max props, so an edit event carries a value inside the range declared for
its slider in the source. -/
def editInSliderRange (e : PanelEdit) : Prop :=
  match e with
  | .setX val => -50 ≤ val ∧ val ≤ 50
  | .setY val => -50 ≤ val ∧ val ≤ 50
  | .setScale val => (1/10 : ℚ) ≤ val ∧ val ≤ 3
  | .setRotation val => -180 ≤ val ∧ val ≤ 180
  | .setOpacity val => 0 ≤ val ∧ val ≤ 1
  | .setBrightness val => -100 ≤ val ∧ val ≤ 100
  | .setContrast val => -100 ≤ val ∧ val ≤ 100
  | .setSaturation val => -100 ≤ val ∧ val ≤ 100
  | .setHue val => -180 ≤ val ∧ val ≤ 180
  | .setVolume val => 0 ≤ val ∧ val ≤ 2
  | .setSpeed val => (1/4 : ℚ) ≤ val ∧ val ≤ 4
  | .setMuted _ => True
  | .setName _ => True

/-- The effective brightness, `video.effects?.brightness ?? 0`. -/
def effBrightness (v : VideoAsset) : ℚ := (v.effects.bind EffectsBag.brightness).getD 0

/-- The effective contrast, `video.effects?.contrast ?? 0`. -/
def effContrast (v : VideoAsset) : ℚ := (v.effects.bind EffectsBag.contrast).getD 0

/-- The effective saturation, `video.effects?.saturation ?? 0`. -/
def effSaturation (v : VideoAsset) : ℚ := (v.effects.bind EffectsBag.saturation).getD 0

/-- The effective hue, `video.effects?.hue ?? 0`. -/
def effHue (v : VideoAsset) : ℚ := (v.effects.bind EffectsBag.hue).getD 0

/-- The effective volume, `video.audio?.volume ?? 1`. -/
def effVolume (v : VideoAsset) : ℚ := (v.audio.bind AudioBag.volume).getD 1

/-- The effective speed, `video.audio?.speed ?? 1`. -/
def effSpeed (v : VideoAsset) : ℚ := (v.audio.bind AudioBag.speed).getD 1

/-- The documented ranges of the effect and audio values: brightness, contrast
and saturation within [-100, 100], hue within [-180, 180], volume within
[0, 2] and speed within [0.25, 4]. -/
def effectsInRange (v : VideoAsset) : Prop :=
  -100 ≤ effBrightness v ∧ effBrightness v ≤ 100 ∧
  -100 ≤ effContrast v ∧ effContrast v ≤ 100 ∧
  -100 ≤ effSaturation v ∧ effSaturation v ≤ 100 ∧
  -180 ≤ effHue v ∧ effHue v ≤ 180 ∧
  0 ≤ effVolume v ∧ effVolume v ≤ 2 ∧
  (1/4 : ℚ) ≤ effSpeed v ∧ effSpeed v ≤ 4

/-! ## ExportModal -/

/-- The export quality options. -/
inductive Quality where
  | q720p
  | q1080p
  | q4K
deriving DecidableEq

/-- The export compression options. -/
inductive Compression where
  | high
  | medium
  | low
deriving DecidableEq

/-- The ExportSettings of ExportModal. -/
structure ExportSettings where
  quality : Quality
  format : String
  framerate : ℚ
  compression : Compression
deriving DecidableEq

/-- `baseSizes = { 720p: 50, 1080p: 100, 4K: 400 }` (MB). -/
def baseSizes (q : Quality) : ℚ :=
  match q with
  | .q720p => 50
  | .q1080p => 100
  | .q4K => 400

/-- `compressionMultipliers = { high: 1.5, medium: 1, low: 0.6 }`. -/
def compressionMultipliers (c : Compression) : ℚ :=
  match c with
  | .high => 3/2
  | .medium => 1
  | .low => 3/5

/-- `processingRates = { 720p: 4, 1080p: 2, 4K: 0.5 }`. -/
def processingRates (q : Quality) : ℚ :=
  match q with
  | .q720p => 4
  | .q1080p => 2
  | .q4K => 1/2

/-- The VideoProject handed to ExportModal: name, canvas dimensions and the
timeline videos. -/
structure VideoProject where
  id : String
  name : String
  width : ℚ
  height : ℚ
  videos : List VideoAsset
deriving DecidableEq

/-- JavaScript Math.round: round half toward positive infinity. -/
def jsRound (q : ℚ) : ℤ := Int.floor (q + 1/2)

/-- The total duration reduce of ExportModal:
`project.videos.reduce((acc, video) => acc + (video.position.endTime - video.position.startTime), 0)`. -/
def totalClipDuration (p : VideoProject) : ℚ :=
  p.videos.foldl (fun acc v => acc + (v.position.endTime - v.position.startTime)) 0

/-- `getEstimatedSize`: `Math.round(baseSize * multiplier * (totalDuration / 60))`. -/
def getEstimatedSize (s : ExportSettings) (p : VideoProject) : ℤ :=
  jsRound (baseSizes s.quality * compressionMultipliers s.compression *
    (totalClipDuration p / 60))

/-- `getEstimatedTime`: `Math.ceil(totalDuration / rate)`. -/
def getEstimatedTime (s : ExportSettings) (p : VideoProject) : ℤ :=
  Int.ceil (totalClipDuration p / processingRates s.quality)

/-- The maximum timeline end time over a project's videos (0 if none); the
quantity the export total duration is NOT computed as. -/
def maxTimelineEnd (p : VideoProject) : ℚ :=
  p.videos.foldl (fun acc v => max acc v.position.endTime) 0

/-- A project with two videos both placed at [0, 10]: overlapping placements,
used to separate the duration sum from the maximum end time. -/
def overlapProject : VideoProject :=
  { id := "project_1", name := "Untitled Project", width := 1920, height := 1080,
    videos := [mkVideoAsset "a" "a" 10 1 "blob:a" "data:a",
               mkVideoAsset "b" "b" 10 1 "blob:b" "data:b"] }

/-! ## Resolver validity lemmas -/

lemma applyTrimLeft_valid (c : Clip) (p : ℚ) (hc : ClipValid c) :
    ClipValid (applyTrimLeft c p) := by
  obtain ⟨h1, h2, h3, h4, h5, h6⟩ := hc
  have hsp : (0:ℚ) < c.speed := by
    have : (0:ℚ) < 1/4 := by norm_num
    linarith
  simp only [applyTrimLeft]
  split_ifs with h
  · exact ⟨h1, h2, h3, h4, h5, h6⟩
  · push_neg at h
    unfold ClipValid
    dsimp only
    refine ⟨le_max_left _ _, ?_, h3, h4, h5, ?_⟩
    · apply max_lt
      · linarith
      · have hmin : min (c.trimEnd - minClipLength) p ≤ c.trimEnd - minClipLength :=
          min_le_left _ _
        have hmcl : (0:ℚ) < minClipLength := by norm_num [minClipLength]
        linarith
    · have h6e : c.timelineEnd = c.timelineStart + (c.trimEnd - c.trimStart) / c.speed := by
        linarith
      rw [h6e]
      field_simp

lemma applyTrimRight_valid (c : Clip) (p : ℚ) (hc : ClipValid c) :
    ClipValid (applyTrimRight c p) := by
  obtain ⟨h1, h2, h3, h4, h5, h6⟩ := hc
  simp only [applyTrimRight]
  split_ifs with h
  · exact ⟨h1, h2, h3, h4, h5, h6⟩
  · push_neg at h
    unfold ClipValid
    dsimp only
    have hmcl : (0:ℚ) < minClipLength := by norm_num [minClipLength]
    refine ⟨h1, ?_, ?_, h4, h5, ?_⟩
    · have : c.trimStart + minClipLength ≤ max (c.trimStart + minClipLength) (min c.sourceDuration p) :=
        le_max_left _ _
      linarith
    · exact max_le h (min_le_left _ _)
    · ring

lemma applyMove_valid (c : Clip) (p : ℚ) (hc : ClipValid c) :
    ClipValid (applyMove c p) := by
  obtain ⟨h1, h2, h3, h4, h5, h6⟩ := hc
  unfold applyMove ClipValid
  dsimp only
  exact ⟨h1, h2, h3, h4, h5, by linarith⟩

lemma applySpeed_valid (c : Clip) (p : ℚ) (hc : ClipValid c) :
    ClipValid (applySpeed c p) := by
  obtain ⟨h1, h2, h3, h4, h5, h6⟩ := hc
  unfold applySpeed ClipValid clampSpeed
  dsimp only
  refine ⟨h1, h2, h3, le_max_left _ _, max_le (by norm_num) (min_le_left _ _), by ring⟩

/-! ## Claim theorems -/

/-- Claim C1: for every t ≥ 0 and zoom within [0.25, 1.75], the coordinate
mapper round trip pixelToTime(timeToPixel(t, zoom), zoom) equals t to within
1e-9 (over the rational model the round trip is exact, so the tolerance bound
holds). -/
theorem claim_C1 (t zoom : ℚ) (ht : 0 ≤ t) (hz1 : (1/4 : ℚ) ≤ zoom) (hz2 : zoom ≤ 7/4) :
    |pixelToTime (timeToPixel t zoom) zoom - t| ≤ 1/1000000000 := by
  have hcz : (0:ℚ) < clampZoom zoom := by
    have : (1/4 : ℚ) ≤ clampZoom zoom := le_max_left _ _
    linarith
  have hb : basePixelsPerSecond * clampZoom zoom ≠ 0 := by
    have : (0:ℚ) < basePixelsPerSecond * clampZoom zoom := by
      apply mul_pos _ hcz
      norm_num [basePixelsPerSecond]
    exact ne_of_gt this
  have hrt : pixelToTime (timeToPixel t zoom) zoom = t := by
    unfold pixelToTime timeToPixel
    rw [mul_assoc, mul_div_assoc, div_self hb, mul_one]
  rw [hrt, sub_self, abs_zero]
  norm_num

/-- Claim C1 witness: the round trip at t = 3, zoom = 1/2. -/
theorem claim_C1_witness :
    (0:ℚ) ≤ 3 ∧ (1/4 : ℚ) ≤ 1/2 ∧ (1/2 : ℚ) ≤ 7/4 ∧
    |pixelToTime (timeToPixel 3 (1/2)) (1/2) - 3| ≤ 1/1000000000 :=
  ⟨by norm_num, by norm_num, by norm_num,
   claim_C1 3 (1/2) (by norm_num) (by norm_num) (by norm_num)⟩

/-- Claim C2: after any trim operation on a valid clip the result again
satisfies 0 ≤ trimStart < trimEnd ≤ sourceDuration and
timelineEnd - timelineStart = (trimEnd - trimStart) / speed (the latter is the
last conjunct of ClipValid, so the timeline duration is never set
independently of the trim window and the speed). -/
theorem claim_C2 (c : Clip) (p : ℚ) (hc : ClipValid c) :
    ClipValid (applyTrimLeft c p) ∧ ClipValid (applyTrimRight c p) :=
  ⟨applyTrimLeft_valid c p hc, applyTrimRight_valid c p hc⟩

/-- Claim C2 witness: both trims at the demonstration clip with proposal 5. -/
theorem claim_C2_witness :
    ClipValid demoClip ∧
    (ClipValid (applyTrimLeft demoClip 5) ∧ ClipValid (applyTrimRight demoClip 5)) :=
  ⟨by norm_num [ClipValid, demoClip],
   claim_C2 demoClip 5 (by norm_num [ClipValid, demoClip])⟩

/-- Claim C4: applySpeed clamps the proposed speed to [0.25, 4] and recomputes
timelineEnd = timelineStart + (trimEnd - trimStart) / newSpeed; and changing the
speed from 1 to 2 on the clip with trimStart 0 and trimEnd 10 makes the
timeline duration 5. -/
theorem claim_C4 :
    (∀ (c : Clip) (ns : ℚ),
      (applySpeed c ns).speed = max (1/4) (min 4 ns) ∧
      (1/4 : ℚ) ≤ (applySpeed c ns).speed ∧ (applySpeed c ns).speed ≤ 4 ∧
      (applySpeed c ns).timelineEnd
        = (applySpeed c ns).timelineStart + (c.trimEnd - c.trimStart) / clampSpeed ns) ∧
    (applySpeed demoClip 2).timelineEnd - (applySpeed demoClip 2).timelineStart = 5 := by
  constructor
  · intro c ns
    refine ⟨rfl, le_max_left _ _, max_le (by norm_num) (min_le_left _ _), rfl⟩
  · norm_num [applySpeed, clampSpeed, demoClip]

/-- Claim C6: applyTrimLeft clamps the proposed trimStart to
[0, trimEnd - minClipLength], leaves timelineEnd unchanged and recomputes
timelineStart by the trimmed-away duration divided by the speed; and on the
demonstration clip (trimStart 0, trimEnd 10) a proposal of -5 is clamped to 0,
a complete no-op. -/
theorem claim_C6 :
    (∀ (c : Clip) (p : ℚ), minClipLength ≤ c.trimEnd →
      (applyTrimLeft c p).trimStart = max 0 (min (c.trimEnd - minClipLength) p) ∧
      (applyTrimLeft c p).timelineEnd = c.timelineEnd ∧
      (applyTrimLeft c p).timelineStart
        = c.timelineStart + ((applyTrimLeft c p).trimStart - c.trimStart) / c.speed) ∧
    applyTrimLeft demoClip (-5) = demoClip := by
  constructor
  · intro c p h
    have hn : ¬(c.trimEnd - minClipLength < 0) := by linarith
    have hn2 : ¬(c.trimEnd < minClipLength) := by linarith
    simp [applyTrimLeft, hn, hn2]
  · have hn : ¬(demoClip.trimEnd - minClipLength < 0) := by
      norm_num [demoClip, minClipLength]
    simp only [applyTrimLeft, if_neg hn]
    norm_num [demoClip, minClipLength]

/-- Claim C6 witness: the clamp equations at the demonstration clip with
proposal 2. -/
theorem claim_C6_witness :
    minClipLength ≤ demoClip.trimEnd ∧
    (applyTrimLeft demoClip 2).trimStart
      = max 0 (min (demoClip.trimEnd - minClipLength) 2) ∧
    (applyTrimLeft demoClip 2).timelineEnd = demoClip.timelineEnd ∧
    (applyTrimLeft demoClip 2).timelineStart
      = demoClip.timelineStart
        + ((applyTrimLeft demoClip 2).trimStart - demoClip.trimStart) / demoClip.speed :=
  ⟨by norm_num [demoClip, minClipLength],
   claim_C6.1 demoClip 2 (by norm_num [demoClip, minClipLength])⟩

/-- Claim C7: the constraint resolver is a total function (it never raises),
and on a valid clip each of its four operations returns either a valid clip or
exactly the input clip. -/
theorem claim_C7 (c : Clip) (hc : ClipValid c) (p1 p2 p3 p4 : ℚ) :
    (ClipValid (applyTrimLeft c p1) ∨ applyTrimLeft c p1 = c) ∧
    (ClipValid (applyTrimRight c p2) ∨ applyTrimRight c p2 = c) ∧
    (ClipValid (applyMove c p3) ∨ applyMove c p3 = c) ∧
    (ClipValid (applySpeed c p4) ∨ applySpeed c p4 = c) :=
  ⟨Or.inl (applyTrimLeft_valid c p1 hc), Or.inl (applyTrimRight_valid c p2 hc),
   Or.inl (applyMove_valid c p3 hc), Or.inl (applySpeed_valid c p4 hc)⟩

/-- Claim C7 witness: the four resolver operations at the demonstration clip. -/
theorem claim_C7_witness :
    ClipValid demoClip ∧
    ((ClipValid (applyTrimLeft demoClip 3) ∨ applyTrimLeft demoClip 3 = demoClip) ∧
     (ClipValid (applyTrimRight demoClip 7) ∨ applyTrimRight demoClip 7 = demoClip) ∧
     (ClipValid (applyMove demoClip 4) ∨ applyMove demoClip 4 = demoClip) ∧
     (ClipValid (applySpeed demoClip 2) ∨ applySpeed demoClip 2 = demoClip)) :=
  ⟨by norm_num [ClipValid, demoClip],
   claim_C7 demoClip (by norm_num [ClipValid, demoClip]) 3 7 4 2⟩

/-! ## History round trip -/

lemma applyCommits_redo_empty (s : HistoryState) (ms : List Project)
    (h : s.undoStack ≠ [] ∨ s.redoStack = []) :
    (applyCommits s ms).undoStack ≠ [] ∨ (applyCommits s ms).redoStack = [] := by
  induction ms generalizing s with
  | nil => exact h
  | cons m rest ih => exact ih (commit s m) (Or.inr rfl)

lemma undo_redo_live (s : HistoryState)
    (h : s.undoStack ≠ [] ∨ s.redoStack = []) :
    (redo (undo s)).live = s.live := by
  obtain ⟨u, l, r⟩ := s
  cases u with
  | nil =>
    cases h with
    | inl hu => exact absurd rfl hu
    | inr hr =>
      simp only at hr
      subst hr
      rfl
  | cons p rest => rfl

/-- Claim C3: starting from any initial project, after any sequence of
committed mutations an undo followed by a redo restores the live project
exactly; moreover undo pushes the current live project onto the redo stack and
restores the most recent undo entry, and redo pushes the current live project
onto the undo stack and restores the most recent redo entry. -/
theorem claim_C3 :
    (∀ (init : Project) (ms : List Project),
      (redo (undo (applyCommits ⟨[], init, []⟩ ms))).live
        = (applyCommits ⟨[], init, []⟩ ms).live) ∧
    (∀ (l : Project) (p : Project) (rest : List Project) (r : List Project),
      undo ⟨p :: rest, l, r⟩ = ⟨rest, p, l :: r⟩) ∧
    (∀ (l : Project) (p : Project) (rest : List Project) (u : List Project),
      redo ⟨u, l, p :: rest⟩ = ⟨l :: u, p, rest⟩) := by
  refine ⟨?_, ?_, ?_⟩
  · intro init ms
    exact undo_redo_live _ (applyCommits_redo_empty ⟨[], init, []⟩ ms (Or.inr rfl))
  · intro l p rest r
    rfl
  · intro l p rest u
    rfl

/-- Claim C8: a gesture whose live copy at pointer-up is within the epsilon
thresholds of the pre-gesture clip commits to nothing: the history state (live
project and both stacks) is exactly unchanged, so zero history entries are
produced. -/
theorem claim_C8 (s : HistoryState) (clipId : String) (preClip liveClip : Clip)
    (h : withinEpsilon preClip liveClip) :
    commitGesture s clipId preClip liveClip = s := by
  unfold commitGesture
  rw [if_pos h]

/-- The demonstration project state for the gesture-commit witness. -/
def gestureDemoState : HistoryState :=
  { undoStack := [],
    live := { id := "p1", name := "Untitled Project", width := 1920, height := 1080,
              clips := [demoClip] },
    redoStack := [] }

/-- Claim C8 witness: an unmoved gesture on the demonstration clip commits to
nothing. -/
theorem claim_C8_witness :
    withinEpsilon demoClip demoClip ∧
    commitGesture gestureDemoState "demo" demoClip demoClip = gestureDemoState := by
  have h : withinEpsilon demoClip demoClip := by
    norm_num [withinEpsilon, posEps, degEps]
  exact ⟨h, claim_C8 gestureDemoState "demo" demoClip demoClip h⟩

/-! ## Panel-edit range preservation -/

lemma spread_bind_brightness (oe : Option EffectsBag) :
    (spreadEffects oe).brightness = oe.bind EffectsBag.brightness := by
  cases oe <;> rfl

lemma spread_bind_contrast (oe : Option EffectsBag) :
    (spreadEffects oe).contrast = oe.bind EffectsBag.contrast := by
  cases oe <;> rfl

lemma spread_bind_saturation (oe : Option EffectsBag) :
    (spreadEffects oe).saturation = oe.bind EffectsBag.saturation := by
  cases oe <;> rfl

lemma spread_bind_hue (oe : Option EffectsBag) :
    (spreadEffects oe).hue = oe.bind EffectsBag.hue := by
  cases oe <;> rfl

lemma spread_bind_volume (oa : Option AudioBag) :
    (spreadAudio oa).volume = oa.bind AudioBag.volume := by
  cases oa <;> rfl

lemma spread_bind_speed (oa : Option AudioBag) :
    (spreadAudio oa).speed = oa.bind AudioBag.speed := by
  cases oa <;> rfl

lemma applyEdit_range (v : VideoAsset) (e : PanelEdit)
    (hv : effectsInRange v) (he : editInSliderRange e) :
    effectsInRange (applyEdit v e) := by
  obtain ⟨b1, b2, c1, c2, s1, s2, h1, h2, w1, w2, p1, p2⟩ := hv
  cases e with
  | setX val => exact ⟨b1, b2, c1, c2, s1, s2, h1, h2, w1, w2, p1, p2⟩
  | setY val => exact ⟨b1, b2, c1, c2, s1, s2, h1, h2, w1, w2, p1, p2⟩
  | setScale val => exact ⟨b1, b2, c1, c2, s1, s2, h1, h2, w1, w2, p1, p2⟩
  | setRotation val => exact ⟨b1, b2, c1, c2, s1, s2, h1, h2, w1, w2, p1, p2⟩
  | setOpacity val => exact ⟨b1, b2, c1, c2, s1, s2, h1, h2, w1, w2, p1, p2⟩
  | setName n => exact ⟨b1, b2, c1, c2, s1, s2, h1, h2, w1, w2, p1, p2⟩
  | setBrightness val =>
    have hc : effContrast (applyEdit v (.setBrightness val)) = effContrast v := by
      show ((spreadEffects v.effects).contrast).getD 0 = _
      rw [spread_bind_contrast]
      rfl
    have hs : effSaturation (applyEdit v (.setBrightness val)) = effSaturation v := by
      show ((spreadEffects v.effects).saturation).getD 0 = _
      rw [spread_bind_saturation]
      rfl
    have hh : effHue (applyEdit v (.setBrightness val)) = effHue v := by
      show ((spreadEffects v.effects).hue).getD 0 = _
      rw [spread_bind_hue]
      rfl
    exact ⟨he.1, he.2, hc ▸ c1, hc ▸ c2, hs ▸ s1, hs ▸ s2, hh ▸ h1, hh ▸ h2,
           w1, w2, p1, p2⟩
  | setContrast val =>
    have hb : effBrightness (applyEdit v (.setContrast val)) = effBrightness v := by
      show ((spreadEffects v.effects).brightness).getD 0 = _
      rw [spread_bind_brightness]
      rfl
    have hs : effSaturation (applyEdit v (.setContrast val)) = effSaturation v := by
      show ((spreadEffects v.effects).saturation).getD 0 = _
      rw [spread_bind_saturation]
      rfl
    have hh : effHue (applyEdit v (.setContrast val)) = effHue v := by
      show ((spreadEffects v.effects).hue).getD 0 = _
      rw [spread_bind_hue]
      rfl
    exact ⟨hb ▸ b1, hb ▸ b2, he.1, he.2, hs ▸ s1, hs ▸ s2, hh ▸ h1, hh ▸ h2,
           w1, w2, p1, p2⟩
  | setSaturation val =>
    have hb : effBrightness (applyEdit v (.setSaturation val)) = effBrightness v := by
      show ((spreadEffects v.effects).brightness).getD 0 = _
      rw [spread_bind_brightness]
      rfl
    have hc : effContrast (applyEdit v (.setSaturation val)) = effContrast v := by
      show ((spreadEffects v.effects).contrast).getD 0 = _
      rw [spread_bind_contrast]
      rfl
    have hh : effHue (applyEdit v (.setSaturation val)) = effHue v := by
      show ((spreadEffects v.effects).hue).getD 0 = _
      rw [spread_bind_hue]
      rfl
    exact ⟨hb ▸ b1, hb ▸ b2, hc ▸ c1, hc ▸ c2, he.1, he.2, hh ▸ h1, hh ▸ h2,
           w1, w2, p1, p2⟩
  | setHue val =>
    have hb : effBrightness (applyEdit v (.setHue val)) = effBrightness v := by
      show ((spreadEffects v.effects).brightness).getD 0 = _
      rw [spread_bind_brightness]
      rfl
    have hc : effContrast (applyEdit v (.setHue val)) = effContrast v := by
      show ((spreadEffects v.effects).contrast).getD 0 = _
      rw [spread_bind_contrast]
      rfl
    have hs : effSaturation (applyEdit v (.setHue val)) = effSaturation v := by
      show ((spreadEffects v.effects).saturation).getD 0 = _
      rw [spread_bind_saturation]
      rfl
    exact ⟨hb ▸ b1, hb ▸ b2, hc ▸ c1, hc ▸ c2, hs ▸ s1, hs ▸ s2, he.1, he.2,
           w1, w2, p1, p2⟩
  | setVolume val =>
    have hp : effSpeed (applyEdit v (.setVolume val)) = effSpeed v := by
      show ((spreadAudio v.audio).speed).getD 1 = _
      rw [spread_bind_speed]
      rfl
    exact ⟨b1, b2, c1, c2, s1, s2, h1, h2, he.1, he.2, hp ▸ p1, hp ▸ p2⟩
  | setSpeed val =>
    have hw : effVolume (applyEdit v (.setSpeed val)) = effVolume v := by
      show ((spreadAudio v.audio).volume).getD 1 = _
      rw [spread_bind_volume]
      rfl
    exact ⟨b1, b2, c1, c2, s1, s2, h1, h2, hw ▸ w1, hw ▸ w2, he.1, he.2⟩
  | setMuted m =>
    have hw : effVolume (applyEdit v (.setMuted m)) = effVolume v := by
      show ((spreadAudio v.audio).volume).getD 1 = _
      rw [spread_bind_volume]
      rfl
    have hp : effSpeed (applyEdit v (.setMuted m)) = effSpeed v := by
      show ((spreadAudio v.audio).speed).getD 1 = _
      rw [spread_bind_speed]
      rfl
    exact ⟨b1, b2, c1, c2, s1, s2, h1, h2, hw ▸ w1, hw ▸ w2, hp ▸ p1, hp ▸ p2⟩

/-- Claim C5: over any sequence of property-panel edit events whose slider
values respect the slider bounds of the source, the effective brightness,
contrast and saturation stay within [-100, 100], the hue within [-180, 180],
the audio volume within [0, 2] and the audio speed within [0.25, 4]. -/
theorem claim_C5 (v : VideoAsset) (es : List PanelEdit)
    (hv : effectsInRange v) (hes : ∀ e ∈ es, editInSliderRange e) :
    effectsInRange (es.foldl applyEdit v) := by
  induction es generalizing v with
  | nil => exact hv
  | cons e rest ih =>
    exact ih (applyEdit v e)
      (applyEdit_range v e hv (hes e (by simp)))
      (fun x hx => hes x (by simp [hx]))

/-- A freshly uploaded asset, used by the claim C5 witness. -/
def freshAsset : VideoAsset := mkVideoAsset "v1" "clip" 10 100 "blob:v1" "data:v1"

/-- Claim C5 witness: a brightness edit followed by a speed edit on a fresh
asset stays in range. -/
theorem claim_C5_witness :
    effectsInRange freshAsset ∧
    (∀ e ∈ [PanelEdit.setBrightness 30, PanelEdit.setSpeed 2],
      editInSliderRange e) ∧
    effectsInRange
      ([PanelEdit.setBrightness 30, PanelEdit.setSpeed 2].foldl applyEdit freshAsset) := by
  have hv : effectsInRange freshAsset := by
    norm_num [effectsInRange, effBrightness, effContrast, effSaturation, effHue,
      effVolume, effSpeed, freshAsset, mkVideoAsset]
  have hes : ∀ e ∈ [PanelEdit.setBrightness 30, PanelEdit.setSpeed 2],
      editInSliderRange e := by
    intro e hmem
    simp only [List.mem_cons, List.not_mem_nil, or_false] at hmem
    rcases hmem with h | h <;> subst h <;> norm_num [editInSliderRange]
  exact ⟨hv, hes, claim_C5 freshAsset _ hv hes⟩

/-- Claim C9: the VideoAsset created on upload spans the whole source
(startTime 0, endTime = duration) with the identity default transform, and when
the source duration is positive the placement invariants
0 ≤ startTime < endTime ≤ duration hold at creation. -/
theorem claim_C9 (idv namev : String) (duration size : ℚ) (url thumbnail : String) :
    (mkVideoAsset idv namev duration size url thumbnail).position.startTime = 0 ∧
    (mkVideoAsset idv namev duration size url thumbnail).position.endTime = duration ∧
    (mkVideoAsset idv namev duration size url thumbnail).transform
      = { x := 0, y := 0, scale := 1, rotation := 0, opacity := 1 } ∧
    (0 < duration →
      0 ≤ (mkVideoAsset idv namev duration size url thumbnail).position.startTime ∧
      (mkVideoAsset idv namev duration size url thumbnail).position.startTime
        < (mkVideoAsset idv namev duration size url thumbnail).position.endTime ∧
      (mkVideoAsset idv namev duration size url thumbnail).position.endTime
        ≤ (mkVideoAsset idv namev duration size url thumbnail).duration) :=
  ⟨rfl, rfl, rfl, fun h => ⟨le_refl 0, h, le_refl duration⟩⟩

/-- Claim C9 witness: the creation invariants at a 10-second upload. -/
theorem claim_C9_witness :
    (0:ℚ) < 10 ∧
    (0 ≤ (mkVideoAsset "v" "n" 10 1 "u" "t").position.startTime ∧
     (mkVideoAsset "v" "n" 10 1 "u" "t").position.startTime
       < (mkVideoAsset "v" "n" 10 1 "u" "t").position.endTime ∧
     (mkVideoAsset "v" "n" 10 1 "u" "t").position.endTime
       ≤ (mkVideoAsset "v" "n" 10 1 "u" "t").duration) :=
  ⟨by norm_num, (claim_C9 "v" "n" 10 1 "u" "t").2.2.2 (by norm_num)⟩

/-! ## Export math -/

lemma foldl_add_map (f : VideoAsset → ℚ) (l : List VideoAsset) (a : ℚ) :
    l.foldl (fun acc v => acc + f v) a = a + (l.map f).sum := by
  induction l generalizing a with
  | nil => simp
  | cons x xs ih => simp [ih, add_assoc]

/-- Claim C10: the export total duration is the sum over all videos of
endTime - startTime (on the overlapping demonstration project it is 20, not the
maximum end time 10, so overlapping clips are counted multiply), and the
estimated export size is round(baseSize * compressionMultiplier * totalDuration / 60)
with baseSizes {720p: 50, 1080p: 100, 4K: 400} and multipliers
{high: 1.5, medium: 1, low: 0.6}. -/
theorem claim_C10 :
    (∀ p : VideoProject,
      totalClipDuration p
        = (p.videos.map (fun v => v.position.endTime - v.position.startTime)).sum) ∧
    (∀ (s : ExportSettings) (p : VideoProject),
      getEstimatedSize s p
        = jsRound (baseSizes s.quality * compressionMultipliers s.compression *
            totalClipDuration p / 60)) ∧
    (totalClipDuration overlapProject = 20 ∧ maxTimelineEnd overlapProject = 10) := by
  refine ⟨?_, ?_, ?_, ?_⟩
  · intro p
    rw [totalClipDuration, foldl_add_map, zero_add]
  · intro s p
    unfold getEstimatedSize
    congr 1
    ring
  · norm_num [totalClipDuration, overlapProject, mkVideoAsset]
  · norm_num [maxTimelineEnd, overlapProject, mkVideoAsset, max_def]

end VideoEditor
